import Mathlib

/-
  Verification of the BrAin trip-planning backend.

  Shallow embedding of the code in src/backend/app: the itinerary JSON
  handling of services/ai_service.py, the route ordering of
  services/itinerary_service.py, the booking and refund logic of
  services/booking_service.py, the request models of models/trip.py,
  the date validator of utils/validators.py and the chat route of
  api/routes.py. Python floats are modelled as rationals, Python dicts
  with a fixed key set as structures with Option fields for keys that
  may be absent, and raised exceptions as Option/Except results.
-/

namespace BrAin

/-- A value stored under one category of the cost_breakdown dict: the code
only rescales entries that are int or float, so we distinguish numeric
entries from everything else. -/
inductive CBVal where
  | num (q : ℚ)
  | other (s : String)
  deriving DecidableEq, Repr

/-- One entry of the meals list of a day,
as produced in the prompt contract of ai_service.py. -/
structure MealJson where
  meal_type : String := ""
  cost_estimate : ℚ := 0
  deriving DecidableEq, Repr

/-- One activity dict of a daily itinerary (ai_service.py). Keys that the
code reads conditionally are Option. -/
structure ActivityJson where
  activity_name : String := ""
  time_slot : String := ""
  description : String := ""
  duration_hours : ℚ := 0
  cost_per_person : Option ℚ := none
  total_cost : Option ℚ := none
  category : String := ""
  booking_required : Bool := false
  activity_id : Option String := none
  bookable : Bool := false
  deriving DecidableEq, Repr

/-- One day dict of daily_itineraries (ai_service.py). Dates are modelled
as day ordinals (integers). -/
structure DayJson where
  day_number : ℕ := 1
  date : Option ℤ := none
  activities : List ActivityJson := []
  meals : List MealJson := []
  day_total_cost : Option ℚ := none
  deriving DecidableEq, Repr

/-- The itinerary dict handled by AIService: the three required top-level
keys may be absent in the parsed model response (Option), the flag keys
written by the code default to false. -/
structure ItineraryJson where
  daily_itineraries : Option (List DayJson) := none
  cost_breakdown : Option (List (String × CBVal)) := none
  total_estimated_cost : Option ℚ := none
  budget_adjusted : Bool := false
  fallback_mode : Bool := false
  booking_ready : Bool := false
  message : Option String := none
  deriving DecidableEq, Repr

/-- The keys of the trip_request dict that AIService reads: budget is
required (trip_request with square brackets), duration_days is read with
default 3, start_date is modelled as a day ordinal. -/
structure TripReq where
  destination : String := ""
  budget : ℚ
  duration_days : Option ℕ := none
  start_date : ℤ := 0
  deriving DecidableEq, Repr

/-- Rescaling of one cost_breakdown entry by _adjust_for_budget: only
int or float values are multiplied by the ratio. -/
def scaleCB (r : ℚ) : CBVal → CBVal
  | .num q => .num (q * r)
  | .other s => .other s

/-- Rescaling of one activity by _adjust_for_budget: cost_per_person and
total_cost are multiplied when present, all other keys are untouched. -/
def scaleActivity (r : ℚ) (a : ActivityJson) : ActivityJson :=
  { a with
      cost_per_person := a.cost_per_person.map (fun c => c * r)
      total_cost := a.total_cost.map (fun c => c * r) }

/-- Rescaling of one day by _adjust_for_budget: day_total_cost when
present and every activity; the meals, accommodation and transport
entries of the day are not visited by the code. -/
def scaleDay (r : ℚ) (d : DayJson) : DayJson :=
  { d with
      day_total_cost := d.day_total_cost.map (fun c => c * r)
      activities := d.activities.map (scaleActivity r) }

/-- ai_service.py, _adjust_for_budget (lines 712 to 748). current_cost is
total_estimated_cost with default 0. When current_cost exceeds the budget
the ratio budget / current_cost is applied to the numeric cost_breakdown
entries, each day_total_cost and each activity cost, total_estimated_cost
is set to the budget and budget_adjusted to True. When current_cost is 0
(only possible here for a negative budget) Python raises
ZeroDivisionError computing the ratio, the except branch of the function
catches it and the itinerary is returned unchanged. -/
def adjustForBudget (it : ItineraryJson) (budget : ℚ) : ItineraryJson :=
  let currentCost := it.total_estimated_cost.getD 0
  if currentCost > budget then
    if currentCost = 0 then it
    else
      let r := budget / currentCost
      { it with
          cost_breakdown :=
            it.cost_breakdown.map (fun entries =>
              entries.map (fun kv => (kv.1, scaleCB r kv.2)))
          daily_itineraries :=
            it.daily_itineraries.map (fun days => days.map (scaleDay r))
          total_estimated_cost := some budget
          budget_adjusted := true }
  else it

/-- ai_service.py, _get_default_value: the zeroed five-category cost map
used when cost_breakdown is missing. -/
def defaultCostBreakdown : List (String × CBVal) :=
  [("accommodation", .num 0), ("meals", .num 0), ("activities", .num 0),
   ("transport", .num 0), ("miscellaneous", .num 0)]

/-- ai_service.py, _parse_and_validate_response (lines 364 to 369): each
missing required field is filled with its default from _get_default_value;
fields that are present are untouched. -/
def fillDefaults (j : ItineraryJson) : ItineraryJson :=
  { j with
      daily_itineraries := some (j.daily_itineraries.getD [])
      cost_breakdown := some (j.cost_breakdown.getD defaultCostBreakdown)
      total_estimated_cost := some (j.total_estimated_cost.getD 0) }

/-- ai_service.py, _create_fallback_itinerary (lines 750 to 788). duration
is duration_days with default 3; daily_budget is budget / duration, which
raises ZeroDivisionError when duration is 0 (modelled as none, the raise
propagates to the caller); otherwise one day per day index with the two
fixed activities, total_estimated_cost equal to the budget and
fallback_mode True. -/
def createFallbackItinerary (req : TripReq) : Option ItineraryJson :=
  let duration := req.duration_days.getD 3
  if duration = 0 then none
  else
    let dailyBudget := req.budget / (duration : ℚ)
    let days := (List.range duration).map (fun day =>
      ({ day_number := day + 1
         date := some (req.start_date + (day : ℤ))
         activities := [
           { activity_name := "Morning Sightseeing"
             time_slot := "09:00-12:00"
             description := "Explore popular local attractions"
             duration_hours := 3
             cost_per_person := some (dailyBudget * (2 / 10))
             category := "sightseeing" },
           { activity_name := "Cultural Experience"
             time_slot := "14:00-17:00"
             description := "Immerse in local culture and traditions"
             duration_hours := 3
             cost_per_person := some (dailyBudget * (15 / 100))
             category := "cultural" }]
         meals := []
         day_total_cost := some dailyBudget } : DayJson))
    some { daily_itineraries := some days
           cost_breakdown := none
           total_estimated_cost := some req.budget
           fallback_mode := true
           message := some "This is a basic itinerary." }

/-- ai_service.py, _parse_and_validate_response (lines 349 to 381). The
input is the parsed JSON object of the model response, none when the text
fails to parse (json.JSONDecodeError), in which case the fallback
itinerary is returned (and a raise inside the fallback propagates, hence
the Option result). On success the missing required fields are filled and
the budget adjustment is applied when the total exceeds the budget. -/
def parseAndValidateResponse (parsed : Option ItineraryJson) (req : TripReq) :
    Option ItineraryJson :=
  match parsed with
  | none => createFallbackItinerary req
  | some j =>
      let j' := fillDefaults j
      if j'.total_estimated_cost.getD 0 > req.budget then
        some (adjustForBudget j' req.budget)
      else
        some j'

/-- ai_service.py, _enhance_itinerary_with_context, activity part: each
activity receives an activity_id built from the day number and the first
20 characters of its name with spaces replaced by underscores, and a
bookable flag copied from booking_required. -/
def enhanceActivity (dayNum : ℕ) (a : ActivityJson) : ActivityJson :=
  { a with
      activity_id :=
        some ("act_" ++ toString dayNum ++ "_"
          ++ ((a.activity_name.replace " " "_").take 20))
      bookable := a.booking_required }

/-- ai_service.py, _enhance_itinerary_with_context, day part: the date is
filled from start_date and the day number when absent, and every activity
is enhanced. -/
def enhanceDay (startDate : ℤ) (d : DayJson) : DayJson :=
  { d with
      date := some (d.date.getD (startDate + (d.day_number : ℤ) - 1))
      activities := d.activities.map (enhanceActivity d.day_number) }

/-- ai_service.py, _enhance_itinerary_with_context (lines 383 to 430),
restricted to the tracked keys: booking_ready is set and the days present
under daily_itineraries are enhanced in place; when the key is absent the
loop runs over the empty default and the key stays absent. -/
def enhanceItinerary (it : ItineraryJson) (req : TripReq) : ItineraryJson :=
  { it with
      booking_ready := true
      daily_itineraries :=
        it.daily_itineraries.map (fun days =>
          days.map (enhanceDay req.start_date)) }

/-- Outcome of the generation pipeline of generate_itinerary as seen from
its try block: either some step raised an exception, or the model call
returned a response whose text parses (some object) or fails to parse
(none). -/
inductive GenOutcome where
  | exn
  | response (parsed : Option ItineraryJson)
  deriving DecidableEq, Repr

/-- ai_service.py, generate_itinerary (lines 63 to 136), with the cache
disabled as in the default configuration. An exception anywhere in the
pipeline is caught by the generic except branch which returns the
fallback itinerary; a raise inside the fallback construction itself
propagates (none). On a response, the text is parsed and validated and
the result enhanced. -/
def generateItinerary (req : TripReq) (o : GenOutcome) : Option ItineraryJson :=
  match o with
  | .exn => createFallbackItinerary req
  | .response parsed =>
      (parseAndValidateResponse parsed req).map (fun it => enhanceItinerary it req)

/-- models/trip.py, Activity: the pydantic record used by
ItineraryService; location is a dict, modelled as a string association
list (the route code only reads the address key). -/
structure ActivityM where
  name : String := ""
  description : String := ""
  duration_hours : ℚ := 1
  cost : ℚ := 0
  location : List (String × String) := []
  category : String := "general"
  rating : Option ℚ := none
  booking_required : Bool := false
  deriving DecidableEq, Repr

/-- The distance matrix returned by
maps_service.calculate_distance_matrix; its content is never read by
_get_distance, so an association list placeholder suffices. -/
abbrev DistanceMatrix := List (String × ℚ)

/-- itinerary_service.py, _get_distance (lines 241 to 249): the simplified
implementation ignores both activities and the matrix and always returns
the default distance 1.0. -/
def getDistance (a b : ActivityM) (matrix : DistanceMatrix) : ℚ := 1

/-- The Python min over a nonempty list with a key function: fold keeping
the current minimum, replacing it only on a strictly smaller key, so the
first minimal element wins. -/
def pyMinBy (key : ActivityM → ℚ) (acc : ActivityM) : List ActivityM → ActivityM
  | [] => acc
  | x :: xs => pyMinBy key (if key x < key acc then x else acc) xs

/-- The Python list.remove: delete the first element equal to the given
one. -/
def removeFirst (x : ActivityM) : List ActivityM → List ActivityM
  | [] => []
  | y :: ys => if y = x then ys else y :: removeFirst x ys

/-- itinerary_service.py, _get_optimal_route, the while loop (lines 226 to
233): repeatedly append the remaining activity nearest to the last chosen
one and remove it from the remaining list. The fuel argument is the
length of the remaining list, which bounds the iteration count. -/
def nnLoop (matrix : DistanceMatrix) :
    ℕ → List ActivityM → List ActivityM → List ActivityM
  | 0, optimized, _ => optimized
  | Nat.succ fuel, optimized, remaining =>
      match remaining with
      | [] => optimized
      | r :: rs =>
          let current := optimized.getLastD r
          let nearest := pyMinBy (fun x => getDistance current x matrix) r rs
          nnLoop matrix fuel (optimized ++ [nearest]) (removeFirst nearest (r :: rs))

/-- itinerary_service.py, _get_optimal_route (lines 200 to 239): lists of
at most two activities are returned as given; if any activity lacks an
address in its location the list is returned as given; otherwise the
nearest-neighbor loop is run starting from the first activity, with the
distance matrix obtained from the maps service (taken here as an
arbitrary argument since _get_distance ignores it). -/
def getOptimalRoute (matrix : DistanceMatrix) (activities : List ActivityM) :
    List ActivityM :=
  if activities.length ≤ 2 then activities
  else
    let locations := activities.filterMap (fun a => a.location.lookup "address")
    if locations.length < activities.length then activities
    else
      match activities with
      | [] => activities
      | a :: rest => nnLoop matrix rest.length [a] rest

/-- The result dicts returned by the _create_emt_booking helpers of
booking_service.py, restricted to the keys the claims are about, plus the
list of HTTP requests actually sent to the EMT provider (the code builds
endpoints and payloads but never awaits the httpx client, so this list is
always empty in every branch). -/
structure EmtResult where
  confirmation_code : Option String := none
  status : String := ""
  emtRequests : List String := []
  deriving DecidableEq, Repr

/-- booking_service.py, _book_flight: mock response with an FL- code built
from the first 8 hex digits of a fresh uuid (taken as an argument). -/
def bookFlight (hex : String) : EmtResult :=
  { confirmation_code := some ("FL-" ++ (hex.take 8).toUpper)
    status := "confirmed" }

/-- booking_service.py, _book_hotel: mock response with an HT- code. -/
def bookHotel (hex : String) : EmtResult :=
  { confirmation_code := some ("HT-" ++ (hex.take 8).toUpper)
    status := "confirmed" }

/-- booking_service.py, _book_train: mock response with a TR- code. -/
def bookTrain (hex : String) : EmtResult :=
  { confirmation_code := some ("TR-" ++ (hex.take 8).toUpper)
    status := "confirmed" }

/-- booking_service.py, _book_bus: mock response with a BS- code. -/
def bookBus (hex : String) : EmtResult :=
  { confirmation_code := some ("BS-" ++ (hex.take 8).toUpper)
    status := "confirmed" }

/-- booking_service.py, _book_cab: mock response with a CB- code. -/
def bookCab (hex : String) : EmtResult :=
  { confirmation_code := some ("CB-" ++ (hex.take 8).toUpper)
    status := "confirmed" }

/-- booking_service.py, _book_activity: mock response with an AC- code. -/
def bookActivity (hex : String) : EmtResult :=
  { confirmation_code := some ("AC-" ++ (hex.take 8).toUpper)
    status := "confirmed" }

/-- booking_service.py, _book_transport (lines 164 to 178): dispatch on
transport_type with default cab. -/
def bookTransport (transport_type : Option String) (hex : String) : EmtResult :=
  let tt := transport_type.getD "cab"
  if tt = "train" then bookTrain hex
  else if tt = "bus" then bookBus hex
  else bookCab hex

/-- booking_service.py, _create_emt_booking (lines 74 to 102): dispatch on
the item type; unrecognized types get an EMT- code directly. The fresh
uuid hex string of each branch is passed in as an argument. -/
def createEmtBooking (ty : String) (transport_type : Option String)
    (hex : String) : EmtResult :=
  if ty = "flight" then bookFlight hex
  else if ty = "hotel" then bookHotel hex
  else if ty = "transport" then bookTransport transport_type hex
  else if ty = "activity" then bookActivity hex
  else
    { confirmation_code := some ("EMT-" ++ (hex.take 8).toUpper)
      status := "confirmed" }

/-- models/booking.py, BookingItem, restricted to the fields read by
_calculate_refund; the date is a timestamp in seconds. -/
structure BookingItemM where
  name : String := ""
  date : ℚ := 0
  total_price : ℚ := 0
  deriving DecidableEq, Repr

/-- models/booking.py, Booking, restricted to the fields read by
_calculate_refund. -/
structure BookingM where
  booking_items : List BookingItemM := []
  total_amount : ℚ := 0
  deriving DecidableEq, Repr

/-- booking_service.py, _calculate_refund (lines 337 to 347): the hours
until the first booking item are (date minus now) in seconds divided by
3600; more than 48 hours gives 90 percent of total_amount, more than 24
gives 50 percent, otherwise 0. Indexing booking_items with 0 raises
IndexError on an empty list (none). -/
def calculateRefund (b : BookingM) (now : ℚ) : Option ℚ :=
  match b.booking_items with
  | [] => none
  | item :: _ =>
      let hoursUntilBooking := (item.date - now) / 3600
      if hoursUntilBooking > 48 then some (b.total_amount * (9 / 10))
      else if hoursUntilBooking > 24 then some (b.total_amount * (1 / 2))
      else some 0

/-- models/trip.py, TripTheme. -/
inductive TripThemeM where
  | heritage | adventure | nightlife | cultural | relaxation
  | family | business | romantic | foodie | shopping
  deriving DecidableEq, Repr

/-- The raw payload offered to the TripRequest pydantic constructor:
required fields may be missing. Dates are day ordinals. -/
structure RawTripRequest where
  destination : Option String := none
  start_date : Option ℤ := none
  end_date : Option ℤ := none
  budget : Option ℚ := none
  travelers_count : Option ℕ := none
  themes : Option (List TripThemeM) := none
  deriving DecidableEq, Repr

/-- models/trip.py, TripRequest, restricted to the fields the claims
read. -/
structure TripRequestM where
  destination : String
  start_date : ℤ
  end_date : ℤ
  budget : ℚ
  travelers_count : ℕ
  themes : List TripThemeM
  deriving DecidableEq, Repr

/-- models/trip.py, TripRequest construction (lines 57 to 70): pydantic
validation of a well-typed payload checks only that the required fields
are present (travelers_count defaults to 1); the model declares no
validator relating the fields, so no cross-field condition is checked. -/
def mkTripRequest (r : RawTripRequest) : Except String TripRequestM :=
  match r.destination, r.start_date, r.end_date, r.budget, r.themes with
  | some d, some s, some e, some b, some th =>
      .ok { destination := d, start_date := s, end_date := e, budget := b
            travelers_count := r.travelers_count.getD 1, themes := th }
  | _, _, _, _, _ => .error "field required"

/-- utils/validators.py, validate_dates (lines 3 to 7): raise ValueError
when start_date is not strictly before end_date, return True otherwise. -/
def validate_dates (req : TripRequestM) : Except String Bool :=
  if req.start_date ≥ req.end_date then
    .error "End date must be after start date"
  else
    .ok true

/-- itinerary_service.py, _structure_itinerary (line 153): the duration in
days stored on the built itinerary is end_date minus start_date plus
one. -/
def durationDays (req : TripRequestM) : ℤ :=
  (req.end_date - req.start_date) + 1

/-- The external calls made by the backend per request, one constructor
per call site the spec names. -/
inductive ExternalCall where
  | modelInference
  | mapsPlaceDetails
  | mapsNearby
  | mapsDirections
  | mapsDistanceMatrix
  | mapsGeocode
  | paymentProcess
  | paymentSession
  | paymentRefund
  | warehouseInsertTrip
  | warehouseLogEvent
  | warehouseLogAppLog
  deriving DecidableEq, Repr

/-- The attempt budget each call site carries in the source: the tenacity
retry decorator with stop_after_attempt(3) sits on
AIService.generate_itinerary (ai_service.py line 63) and on
MapsService.get_place_details (maps_service.py line 46); no other service
method is decorated, so every other call is attempted once. -/
def maxAttempts : ExternalCall → ℕ
  | .modelInference => 3
  | .mapsPlaceDetails => 3
  | _ => 1

/-- Semantics of a tenacity retry budget: run attempt indices start,
start + 1, ... until a success or until the budget is exhausted, in which
case the last error is returned. -/
def retryFrom {α : Type} (start : ℕ) : ℕ → (ℕ → Except String α) → Except String α
  | 0, f => f start
  | 1, f => f start
  | Nat.succ (Nat.succ n), f =>
      match f start with
      | .ok a => .ok a
      | .error _ => retryFrom (start + 1) (Nat.succ n) f

/-- An external call run under the retry budget its source decorators
give it. -/
def runExternal {α : Type} (c : ExternalCall) (f : ℕ → Except String α) :
    Except String α :=
  retryFrom 0 (maxAttempts c) f

/-- A JSON value in a chat request body; the route only moves values
around, so the nesting of arrays and objects is not needed. -/
inductive JVal where
  | str (s : String)
  | num (q : ℚ)
  | boolean (b : Bool)
  | null
  deriving DecidableEq, Repr

/-- The response body of the chat route. -/
structure ChatResponse where
  status : String
  message : JVal
  response : String
  deriving DecidableEq, Repr

/-- api/routes.py, chat_with_ai (lines 51 to 60): for any JSON object
body, the handler reads message with default empty string and returns the
fixed body; FastAPI serves it with status code 200. The result pairs the
HTTP status code with the body. -/
def chatWithAi (request : List (String × JVal)) : ℕ × ChatResponse :=
  (200,
    { status := "success"
      message := (request.lookup "message").getD (JVal.str "")
      response := "AI chat endpoint - implementation pending" })

/- Theorems. -/

lemma pyMinBy_getDistance (cur : ActivityM) (m : DistanceMatrix)
    (acc : ActivityM) (xs : List ActivityM) :
    pyMinBy (fun x => getDistance cur x m) acc xs = acc := by
  induction xs generalizing acc with
  | nil => rfl
  | cons x xs ih =>
      simp only [pyMinBy, getDistance]
      rw [if_neg (lt_irrefl (1 : ℚ))]
      exact ih acc

lemma removeFirst_cons_self (r : ActivityM) (rs : List ActivityM) :
    removeFirst r (r :: rs) = rs := by
  simp [removeFirst]

lemma nnLoop_append (m : DistanceMatrix) :
    ∀ (rs opt : List ActivityM), nnLoop m rs.length opt rs = opt ++ rs := by
  intro rs
  induction rs with
  | nil => intro opt; simp [nnLoop]
  | cons r rs ih =>
      intro opt
      simp only [List.length_cons, nnLoop, pyMinBy_getDistance,
        removeFirst_cons_self]
      rw [ih (opt ++ [r])]
      simp

lemma createFallback_spec (req : TripReq) (h : req.duration_days.getD 3 ≠ 0) :
    ∃ fb, createFallbackItinerary req = some fb ∧
      fb.fallback_mode = true ∧
      fb.total_estimated_cost = some req.budget ∧
      ∃ days, fb.daily_itineraries = some days ∧
        days.length = req.duration_days.getD 3 ∧
        ∀ d ∈ days, d.activities.map (fun a => a.activity_name) =
          ["Morning Sightseeing", "Cultural Experience"] := by
  unfold createFallbackItinerary
  rw [if_neg h]
  refine ⟨_, rfl, rfl, rfl, _, rfl, by simp, ?_⟩
  intro d hd
  simp only [List.mem_map] at hd
  obtain ⟨i, _, rfl⟩ := hd
  rfl

lemma enhanceDay_activity_names (s : ℤ) (d : DayJson) :
    (enhanceDay s d).activities.map (fun a => a.activity_name) =
      d.activities.map (fun a => a.activity_name) := by
  simp [enhanceDay, enhanceActivity, List.map_map, Function.comp]

/-- A request whose duration_days key is 0. -/
def reqDurZero : TripReq := { budget := 100, duration_days := some 0 }

/-- Claim C3, counterexample: for a request carrying duration_days 0, a
failing generation does not return the fallback payload: computing
daily_budget in _create_fallback_itinerary divides the budget by the zero
duration, the ZeroDivisionError is raised inside the except handler of
generate_itinerary and propagates to the caller (modelled as none), both
when the pipeline raised and when the response text failed to parse. -/
theorem C3_counterexample :
    generateItinerary reqDurZero GenOutcome.exn = none ∧
    generateItinerary reqDurZero (GenOutcome.response none) = none :=
  ⟨rfl, rfl⟩

/-- Claim C3, amended: whenever itinerary generation fails, either by an
exception in the pipeline or by the response text failing to parse as
JSON, and the request duration_days (default 3) is nonzero,
generate_itinerary propagates no error and returns the fallback payload:
total_estimated_cost equals the request budget, daily_itineraries has
exactly duration_days entries, each entry carries the two fixed
activities Morning Sightseeing and Cultural Experience, and
fallback_mode is set. -/
theorem C3_amended (req : TripReq) (o : GenOutcome)
    (hdur : req.duration_days.getD 3 ≠ 0)
    (ho : o = GenOutcome.exn ∨ o = GenOutcome.response none) :
    ∃ out, generateItinerary req o = some out ∧
      out.fallback_mode = true ∧
      out.total_estimated_cost = some req.budget ∧
      ∃ days, out.daily_itineraries = some days ∧
        days.length = req.duration_days.getD 3 ∧
        ∀ d ∈ days, d.activities.map (fun a => a.activity_name) =
          ["Morning Sightseeing", "Cultural Experience"] := by
  obtain ⟨fb, hfb, hmode, htotal, days, hdays, hlen, hnames⟩ :=
    createFallback_spec req hdur
  rcases ho with rfl | rfl
  · exact ⟨fb, hfb, hmode, htotal, days, hdays, hlen, hnames⟩
  · refine ⟨enhanceItinerary fb req, ?_, hmode, htotal,
      days.map (enhanceDay req.start_date), ?_, by simp [hlen], ?_⟩
    · simp [generateItinerary, parseAndValidateResponse, hfb]
    · simp [enhanceItinerary, hdays]
    · intro d hd
      simp only [List.mem_map] at hd
      obtain ⟨d0, hd0, rfl⟩ := hd
      rw [enhanceDay_activity_names]
      exact hnames d0 hd0

/-- Claim C3, witness: the amended theorem evaluated at a concrete
request with budget 100 and absent duration_days, for the exception
outcome. -/
theorem C3_witness :
    ∃ out, generateItinerary { budget := 100 } GenOutcome.exn = some out ∧
      out.fallback_mode = true ∧
      out.total_estimated_cost = some ((100 : ℚ)) ∧
      ∃ days, out.daily_itineraries = some days ∧
        days.length = 3 ∧
        ∀ d ∈ days, d.activities.map (fun a => a.activity_name) =
          ["Morning Sightseeing", "Cultural Experience"] :=
  C3_amended { budget := 100 } GenOutcome.exn (by decide) (Or.inl rfl)

/-- Claim C5, counterexample: the maps lookup get_place_details carries
the same 3-attempt exponential-backoff retry decorator as the model call,
so it is not attempted exactly once: a lookup whose first attempt fails
and whose second succeeds returns the success of the second attempt. -/
theorem C5_counterexample :
    maxAttempts ExternalCall.mapsPlaceDetails = 3 ∧
    ExternalCall.mapsPlaceDetails ≠ ExternalCall.modelInference ∧
    runExternal ExternalCall.mapsPlaceDetails
        (fun n => if n = 0 then Except.error "timeout" else Except.ok (1 : ℕ))
      = Except.ok 1 ∧
    (fun n => if n = 0 then Except.error "timeout" else Except.ok (1 : ℕ)) 0
      = Except.error "timeout" :=
  ⟨rfl, by decide, rfl, rfl⟩

/-- Claim C5, amended: the retry-with-backoff decorator sits on exactly
two of the external calls, the model inference call
(AIService.generate_itinerary) and the maps place lookup
(MapsService.get_place_details), both with a 3-attempt budget; every
other maps lookup, payment call and warehouse write is attempted exactly
once. -/
theorem C5_amended (c : ExternalCall) (f : ℕ → Except String ℕ) :
    ((c = ExternalCall.modelInference ∨ c = ExternalCall.mapsPlaceDetails) ↔
      maxAttempts c = 3) ∧
    (¬(c = ExternalCall.modelInference ∨ c = ExternalCall.mapsPlaceDetails) →
      runExternal c f = f 0) ∧
    (∀ e e', f 0 = Except.error e → f 1 = Except.error e' →
      (c = ExternalCall.modelInference ∨ c = ExternalCall.mapsPlaceDetails) →
      runExternal c f = f 2) := by
  refine ⟨?_, ?_, ?_⟩
  · cases c <;> simp [maxAttempts]
  · intro hc
    cases c <;> simp_all [runExternal, maxAttempts, retryFrom]
  · intro e e' h0 h1 hc
    rcases hc with rfl | rfl <;>
      simp [runExternal, maxAttempts, retryFrom, h0, h1]

/-- An attempt trace whose first two attempts fail. -/
def fTwice : ℕ → Except String ℕ :=
  fun n => if n ≤ 1 then Except.error "boom" else Except.ok 7

/-- Claim C5, witness: a payment call is attempted once while the model
call is retried to its third attempt on the same trace. -/
theorem C5_witness :
    runExternal ExternalCall.paymentProcess fTwice = fTwice 0 ∧
    runExternal ExternalCall.modelInference fTwice = fTwice 2 := by
  constructor
  · exact (C5_amended ExternalCall.paymentProcess fTwice).2.1 (by decide)
  · exact (C5_amended ExternalCall.modelInference fTwice).2.2 "boom" "boom"
      rfl rfl (Or.inl rfl)

/-- Claim C6: the TripRequest constructor enforces no relationship
between fields: any well-typed payload with the required fields present
is accepted even when end_date is on or before start_date or the budget
is negative; the accepted record stores the given values unchanged. -/
theorem C6_no_invariants (d : String) (s e : ℤ) (b : ℚ)
    (th : List TripThemeM) (tc : Option ℕ)
    (hbad : e ≤ s ∨ b < 0) :
    ∃ t, mkTripRequest
        { destination := some d, start_date := some s, end_date := some e
          budget := some b, travelers_count := tc, themes := some th }
      = .ok t ∧
      t.start_date = s ∧ t.end_date = e ∧ t.budget = b :=
  ⟨_, rfl, rfl, rfl, rfl⟩

/-- Claim C6, witness: a same-day-reversed trip with a negative budget is
accepted by the constructor. -/
theorem C6_witness :
    ∃ t, mkTripRequest
        { destination := some "Goa", start_date := some 10, end_date := some 5
          budget := some (-100), travelers_count := none, themes := some [] }
      = .ok t ∧
      t.start_date = 10 ∧ t.end_date = 5 ∧ t.budget = -100 :=
  C6_no_invariants "Goa" 10 5 (-100) [] none (Or.inl (by decide))

/-- Claim C7: _create_emt_booking is a hard-coded mock: every branch,
for the recognized types flight, hotel, transport and activity and for
any unrecognized type, returns status confirmed with a fresh confirmation
code whose dash-separated first component is determined by the type (FL
for flight, HT for hotel, TR, BS or CB for transport depending on
transport_type, AC for activity, EMT otherwise), and the list of HTTP
requests sent to the EMT provider is empty in every branch. -/
theorem C7_emt_mock (ty : String) (tt : Option String) (hex : String) :
    (createEmtBooking ty tt hex).status = "confirmed" ∧
    (createEmtBooking ty tt hex).emtRequests = [] ∧
    (ty = "flight" → (createEmtBooking ty tt hex).confirmation_code
        = some ("FL-" ++ (hex.take 8).toUpper)) ∧
    (ty = "hotel" → (createEmtBooking ty tt hex).confirmation_code
        = some ("HT-" ++ (hex.take 8).toUpper)) ∧
    (ty = "activity" → (createEmtBooking ty tt hex).confirmation_code
        = some ("AC-" ++ (hex.take 8).toUpper)) ∧
    (ty = "transport" → tt = some "train" →
      (createEmtBooking ty tt hex).confirmation_code
        = some ("TR-" ++ (hex.take 8).toUpper)) ∧
    (ty = "transport" → tt = some "bus" →
      (createEmtBooking ty tt hex).confirmation_code
        = some ("BS-" ++ (hex.take 8).toUpper)) ∧
    (ty = "transport" → tt.getD "cab" ≠ "train" → tt.getD "cab" ≠ "bus" →
      (createEmtBooking ty tt hex).confirmation_code
        = some ("CB-" ++ (hex.take 8).toUpper)) ∧
    (ty ≠ "flight" → ty ≠ "hotel" → ty ≠ "transport" → ty ≠ "activity" →
      (createEmtBooking ty tt hex).confirmation_code
        = some ("EMT-" ++ (hex.take 8).toUpper)) := by
  refine ⟨?_, ?_, ?_, ?_, ?_, ?_, ?_, ?_, ?_⟩
  · simp only [createEmtBooking, bookTransport, bookFlight, bookHotel,
      bookTrain, bookBus, bookCab, bookActivity]
    split_ifs <;> rfl
  · simp only [createEmtBooking, bookTransport, bookFlight, bookHotel,
      bookTrain, bookBus, bookCab, bookActivity]
    split_ifs <;> rfl
  · intro h; subst h; simp [createEmtBooking, bookFlight]
  · intro h; subst h; simp [createEmtBooking, bookHotel]
  · intro h; subst h; simp [createEmtBooking, bookActivity]
  · intro h ht; subst h; subst ht
    simp [createEmtBooking, bookTransport, bookTrain]
  · intro h ht; subst h; subst ht
    simp [createEmtBooking, bookTransport, bookBus]
  · intro h h1 h2; subst h
    simp [createEmtBooking, bookTransport, h1, h2, bookCab]
  · intro h1 h2 h3 h4
    simp [createEmtBooking, h1, h2, h3, h4]

/-- Claim C7, witness: the theorem evaluated for a transport item booked
as a cab with a concrete uuid hex string. -/
theorem C7_witness :
    (createEmtBooking "transport" none "a1b2c3d4e5").status = "confirmed" ∧
    (createEmtBooking "transport" none "a1b2c3d4e5").confirmation_code
      = some ("CB-" ++ (("a1b2c3d4e5" : String).take 8).toUpper) := by
  constructor
  · exact (C7_emt_mock "transport" none "a1b2c3d4e5").1
  · exact (C7_emt_mock "transport" none "a1b2c3d4e5").2.2.2.2.2.2.2.1 rfl
      (by decide) (by decide)

/-- Claim C8: for every JSON object request body, the chat route returns
HTTP 200 with a body whose status field is success, whose response field
is the fixed pending-implementation text, and whose message field echoes
the message value of the request, the empty string when no message key is
supplied. -/
theorem C8_chat_route (request : List (String × JVal)) :
    (chatWithAi request).1 = 200 ∧
    (chatWithAi request).2.status = "success" ∧
    (chatWithAi request).2.response = "AI chat endpoint - implementation pending" ∧
    (chatWithAi request).2.message
      = (request.lookup "message").getD (JVal.str "") ∧
    (request.lookup "message" = none →
      (chatWithAi request).2.message = JVal.str "") := by
  refine ⟨rfl, rfl, rfl, rfl, ?_⟩
  intro h
  simp [chatWithAi, h]

/-- Claim C8, witness: the theorem evaluated at the empty request
body. -/
theorem C8_witness :
    (chatWithAi []).1 = 200 ∧
    (chatWithAi []).2.status = "success" ∧
    (chatWithAi []).2.response = "AI chat endpoint - implementation pending" ∧
    (chatWithAi []).2.message
      = (([] : List (String × JVal)).lookup "message").getD (JVal.str "") ∧
    (([] : List (String × JVal)).lookup "message" = none →
      (chatWithAi []).2.message = JVal.str "") :=
  C8_chat_route []

/-- Claim C9: validate_dates raises ValueError exactly when start_date is
on or after end_date and returns True otherwise; in particular a same-day
trip is rejected although the duration computed by _structure_itinerary
for it would be the positive value 1. -/
theorem C9_validate_dates (req : TripRequestM) :
    ((∃ msg, validate_dates req = .error msg) ↔
      req.start_date ≥ req.end_date) ∧
    (req.start_date < req.end_date → validate_dates req = .ok true) ∧
    (req.start_date = req.end_date →
      validate_dates req = .error "End date must be after start date" ∧
      durationDays req = 1) := by
  by_cases h : req.start_date ≥ req.end_date
  · have hv : validate_dates req = .error "End date must be after start date" := by
      simp only [validate_dates, if_pos h]
    refine ⟨⟨fun _ => h, fun _ => ⟨_, hv⟩⟩,
      fun hlt => absurd h (not_le.mpr hlt),
      fun heq => ⟨hv, ?_⟩⟩
    simp only [durationDays]
    omega
  · have hv : validate_dates req = .ok true := by
      simp only [validate_dates, if_neg h]
    refine ⟨⟨fun hm => ?_, fun hge => absurd hge h⟩,
      fun _ => hv, fun heq => absurd (le_of_eq heq.symm) h⟩
    obtain ⟨m, hm⟩ := hm
    rw [hv] at hm
    simp at hm

/-- Claim C9, witness: a same-day request is rejected with the ValueError
message even though its computed duration is one day. -/
theorem C9_witness :
    validate_dates
        { destination := "Delhi", start_date := 5, end_date := 5
          budget := 100, travelers_count := 1, themes := [] }
      = .error "End date must be after start date" ∧
    durationDays
        { destination := "Delhi", start_date := 5, end_date := 5
          budget := 100, travelers_count := 1, themes := [] }
      = 1 :=
  (C9_validate_dates
    { destination := "Delhi", start_date := 5, end_date := 5
      budget := 100, travelers_count := 1, themes := [] }).2.2 rfl

/-- A booking with a single item far in the future and a negative total
amount (nothing in the model forbids negative item prices). -/
def negBooking : BookingM :=
  { booking_items := [{ name := "flight", date := 360000, total_price := -100 }]
    total_amount := -100 }

/-- Claim C10, counterexample: for a booking whose total_amount is the
negative value -100 and whose first item lies 100 hours ahead, the
computed refund -90 strictly exceeds the total_amount -100, and the
refund decreases from 0 to -90 as the time remaining grows, so the
consequences claimed (refund bounded by total_amount, monotone
non-decreasing in time remaining) fail as stated. -/
theorem C10_counterexample :
    calculateRefund negBooking 0 = some (-90) ∧
    ¬((-90 : ℚ) ≤ negBooking.total_amount) ∧
    calculateRefund negBooking 360000 = some 0 ∧
    ¬((-90 : ℚ) ≥ 0) := by
  have h48 : ((360000 : ℚ) - 0) / 3600 > 48 := by norm_num
  have hnow : ¬(((360000 : ℚ) - 360000) / 3600 > 48) := by norm_num
  have hnow' : ¬(((360000 : ℚ) - 360000) / 3600 > 24) := by norm_num
  refine ⟨?_, by norm_num [negBooking], ?_, by norm_num⟩
  · simp only [calculateRefund, negBooking, if_pos h48]
    norm_num
  · simp only [calculateRefund, negBooking, if_neg hnow, if_neg hnow']

lemma ite_some_refund (c c2 : Prop) [Decidable c] [Decidable c2] (a b d : ℚ) :
    (if c then some a else if c2 then some b else some d)
      = some (if c then a else if c2 then b else d) := by
  split_ifs <;> rfl

lemma refund_le_total (t h : ℚ) (ht : 0 ≤ t) :
    (if h > 48 then t * (9 / 10) else if h > 24 then t * (1 / 2) else 0) ≤ t := by
  split_ifs <;> linarith

lemma refund_nonneg (t h : ℚ) (ht : 0 ≤ t) :
    0 ≤ (if h > 48 then t * (9 / 10) else if h > 24 then t * (1 / 2) else 0) := by
  split_ifs <;> linarith

lemma refund_mono (t h h' : ℚ) (ht : 0 ≤ t) (hh : h' ≤ h) :
    (if h' > 48 then t * (9 / 10) else if h' > 24 then t * (1 / 2) else 0) ≤
      (if h > 48 then t * (9 / 10) else if h > 24 then t * (1 / 2) else 0) := by
  split_ifs <;> linarith

/-- Claim C10, amended: for every booking with at least one item and a
non-negative total_amount, the refund on cancellation is 90 percent of
total_amount when the first item lies more than 48 hours ahead, 50
percent when more than 24 but at most 48 hours ahead, and 0 otherwise;
under the non-negativity hypothesis the refund never exceeds
total_amount, is never negative, and is monotone non-decreasing in the
time remaining until the first item. -/
theorem C10_amended (b : BookingM) (now now' : ℚ)
    (hne : b.booking_items ≠ []) (hnn : 0 ≤ b.total_amount)
    (hle : now ≤ now') :
    ∃ r r', calculateRefund b now = some r ∧ calculateRefund b now' = some r' ∧
      r ≤ b.total_amount ∧ 0 ≤ r ∧ r' ≤ r ∧
      ∀ item rest, b.booking_items = item :: rest →
        ((item.date - now) / 3600 > 48 → r = b.total_amount * (9 / 10)) ∧
        (¬((item.date - now) / 3600 > 48) → (item.date - now) / 3600 > 24 →
          r = b.total_amount * (1 / 2)) ∧
        (¬((item.date - now) / 3600 > 48) → ¬((item.date - now) / 3600 > 24) →
          r = 0) := by
  obtain ⟨item, rest, hb⟩ : ∃ i l, b.booking_items = i :: l := by
    cases hbi : b.booking_items with
    | nil => exact absurd hbi hne
    | cons i l => exact ⟨i, l, rfl⟩
  have hmono : (item.date - now') / 3600 ≤ (item.date - now) / 3600 := by
    have h3600 : (0 : ℚ) < 3600 := by norm_num
    exact (div_le_div_iff_of_pos_right h3600).mpr (by linarith)
  simp only [calculateRefund, hb, ite_some_refund]
  refine ⟨_, _, rfl, rfl,
    refund_le_total b.total_amount ((item.date - now) / 3600) hnn,
    refund_nonneg b.total_amount ((item.date - now) / 3600) hnn,
    refund_mono b.total_amount ((item.date - now) / 3600)
      ((item.date - now') / 3600) hnn hmono, ?_⟩
  intro item0 rest0 h0
  injection h0 with hi hr
  subst hi
  refine ⟨fun hc => by rw [if_pos hc],
    fun hc1 hc2 => by rw [if_neg hc1, if_pos hc2],
    fun hc1 hc2 => by rw [if_neg hc1, if_neg hc2]⟩

/-- A booking with a single item 100 hours in the future and total
amount 1000. -/
def posBooking : BookingM :=
  { booking_items := [{ name := "hotel", date := 360000, total_price := 1000 }]
    total_amount := 1000 }

/-- Claim C10, witness: the amended theorem evaluated at a concrete
booking with non-negative total, comparing the same cancellation
moment with itself. -/
theorem C10_witness :
    ∃ r r', calculateRefund posBooking 0 = some r ∧
      calculateRefund posBooking 0 = some r' ∧
      r ≤ posBooking.total_amount ∧ 0 ≤ r ∧ r' ≤ r ∧
      ∀ item rest, posBooking.booking_items = item :: rest →
        ((item.date - 0) / 3600 > 48 →
          r = posBooking.total_amount * (9 / 10)) ∧
        (¬((item.date - 0) / 3600 > 48) → (item.date - 0) / 3600 > 24 →
          r = posBooking.total_amount * (1 / 2)) ∧
        (¬((item.date - 0) / 3600 > 48) → ¬((item.date - 0) / 3600 > 24) →
          r = 0) :=
  C10_amended posBooking 0 0 (by decide) (by norm_num [posBooking])
    (le_refl 0)

/-- A concrete parsed itinerary: total_estimated_cost 200, one day whose
meals list holds a meal with numeric cost field cost_estimate 100. -/
def exIt : ItineraryJson :=
  { daily_itineraries := some [
      { day_number := 1
        activities := []
        meals := [{ meal_type := "lunch", cost_estimate := 100 }]
        day_total_cost := some 200 }]
    total_estimated_cost := some 200 }

/-- Claim C1, counterexample: for exIt and budget 100 the total cost 200
exceeds the budget and the claimed ratio is 100 / 200, yet the numeric
cost field cost_estimate of the meal is returned unchanged at 100 by
_adjust_for_budget instead of being multiplied to 100 * (100 / 200) = 50,
so not every numeric cost field of the itinerary is multiplied by the
ratio. -/
theorem C1_counterexample :
    exIt.total_estimated_cost.getD 0 = 200 ∧ (200 : ℚ) > 100 ∧
    ((adjustForBudget exIt 100).daily_itineraries.getD []).map
        (fun d => d.meals.map (fun mm => mm.cost_estimate)) = [[100]] ∧
    ([[(100 : ℚ)]] : List (List ℚ)) ≠ [[100 * (100 / 200)]] := by
  have h1 : (200 : ℚ) > 100 := by norm_num
  have h2 : ¬(200 : ℚ) = 0 := by norm_num
  refine ⟨rfl, h1, ?_, ?_⟩
  · simp [adjustForBudget, exIt, h1, h2, scaleDay, scaleActivity]
  · intro h
    have := List.head_eq_of_cons_eq h
    have h50 : (100 : ℚ) * (100 / 200) = 50 := by norm_num
    rw [h50] at this
    have := List.head_eq_of_cons_eq this
    norm_num at this

/-- Claim C1, amended: when total_estimated_cost (default 0) does not
exceed the budget the itinerary is returned unchanged; when it exceeds
the budget and is nonzero, _adjust_for_budget multiplies the numeric
cost_breakdown entries, each day_total_cost and each activity
cost_per_person and total_cost by the ratio budget divided by the total,
sets total_estimated_cost to exactly the budget and budget_adjusted to
true, and leaves every other cost field, in particular the meal costs,
unchanged. (When the stored total is zero and still exceeds a negative
budget, the ratio computation raises ZeroDivisionError which the function
catches, returning the itinerary unchanged.) -/
theorem C1_amended_adjust (it : ItineraryJson) (budget : ℚ) :
    (¬ it.total_estimated_cost.getD 0 > budget →
      adjustForBudget it budget = it) ∧
    (it.total_estimated_cost.getD 0 > budget →
      it.total_estimated_cost.getD 0 ≠ 0 →
      (adjustForBudget it budget).total_estimated_cost = some budget ∧
      (adjustForBudget it budget).budget_adjusted = true ∧
      (adjustForBudget it budget).cost_breakdown =
        it.cost_breakdown.map (fun entries => entries.map (fun kv =>
          (kv.1, scaleCB (budget / it.total_estimated_cost.getD 0) kv.2))) ∧
      (adjustForBudget it budget).daily_itineraries =
        it.daily_itineraries.map (fun days =>
          days.map (scaleDay (budget / it.total_estimated_cost.getD 0))) ∧
      ∀ days, it.daily_itineraries = some days →
        ∃ days', (adjustForBudget it budget).daily_itineraries = some days' ∧
          days'.map (fun d => d.meals) = days.map (fun d => d.meals)) := by
  constructor
  · intro h
    simp only [adjustForBudget]
    rw [if_neg h]
  · intro h hne
    simp only [adjustForBudget]
    rw [if_pos h, if_neg hne]
    refine ⟨rfl, rfl, rfl, rfl, ?_⟩
    intro days hd
    refine ⟨days.map (scaleDay (budget / it.total_estimated_cost.getD 0)),
      ?_, ?_⟩
    · simp [hd]
    · simp [List.map_map, Function.comp, scaleDay]

/-- Claim C1, witness for the amended theorem at exIt and budget 100. -/
theorem C1_witness :
    (adjustForBudget exIt 100).total_estimated_cost = some 100 ∧
    adjustForBudget exIt 300 = exIt := by
  constructor
  · exact ((C1_amended_adjust exIt 100).2 (by decide) (by decide)).1
  · exact (C1_amended_adjust exIt 300).1 (by decide)

lemma scale_defaultCostBreakdown (r : ℚ) :
    List.map (fun kv => (kv.1, scaleCB r kv.2)) defaultCostBreakdown
      = defaultCostBreakdown := by
  simp [defaultCostBreakdown, scaleCB]

/-- Claim C4: for every model response that parses as a JSON object, the
result of _parse_and_validate_response carries all three required
top-level keys daily_itineraries, cost_breakdown and
total_estimated_cost; when a key was missing from the parsed JSON it ends
up with its fixed default: the empty list, the zeroed five-category cost
map, and 0 respectively. -/
theorem C4_required_fields (j : ItineraryJson) (req : TripReq) :
    ∃ out, parseAndValidateResponse (some j) req = some out ∧
      out.daily_itineraries.isSome ∧ out.cost_breakdown.isSome ∧
      out.total_estimated_cost.isSome ∧
      (j.daily_itineraries = none → out.daily_itineraries = some []) ∧
      (j.cost_breakdown = none →
        out.cost_breakdown = some defaultCostBreakdown) ∧
      (j.total_estimated_cost = none → out.total_estimated_cost = some 0) := by
  have hfd : (fillDefaults j).total_estimated_cost.getD 0
      = j.total_estimated_cost.getD 0 := by simp [fillDefaults]
  by_cases h : j.total_estimated_cost.getD 0 > req.budget
  · refine ⟨adjustForBudget (fillDefaults j) req.budget,
      ?_, ?_, ?_, ?_, ?_, ?_, ?_⟩
    · simp [parseAndValidateResponse, hfd, h]
    · by_cases h0 : j.total_estimated_cost.getD 0 = 0 <;>
        simp [adjustForBudget, fillDefaults, hfd, h, h0]
    · by_cases h0 : j.total_estimated_cost.getD 0 = 0 <;>
        simp [adjustForBudget, fillDefaults, hfd, h, h0]
    · by_cases h0 : j.total_estimated_cost.getD 0 = 0 <;>
        simp [adjustForBudget, fillDefaults, hfd, h, h0]
    · intro hnone
      by_cases h0 : j.total_estimated_cost.getD 0 = 0 <;>
        simp [adjustForBudget, fillDefaults, hfd, h, h0, hnone]
    · intro hnone
      by_cases h0 : j.total_estimated_cost.getD 0 = 0 <;>
        simp [adjustForBudget, fillDefaults, hfd, h, h0, hnone,
          scale_defaultCostBreakdown]
    · intro hnone
      by_cases h0 : j.total_estimated_cost.getD 0 = 0
      · simp [adjustForBudget, fillDefaults, hfd, h, h0, hnone]
      · exact absurd (by simp [hnone]) h0
  · refine ⟨fillDefaults j, ?_, ?_, ?_, ?_, ?_, ?_, ?_⟩
    · simp [parseAndValidateResponse, hfd, h]
    · simp [fillDefaults]
    · simp [fillDefaults]
    · simp [fillDefaults]
    · intro hnone; simp [fillDefaults, hnone]
    · intro hnone; simp [fillDefaults, hnone]
    · intro hnone; simp [fillDefaults, hnone]

/-- Claim C4, witness: the theorem evaluated at the empty parsed object,
whose three required keys are all missing, and a request with budget
100. -/
theorem C4_witness :
    ∃ out, parseAndValidateResponse (some {}) { budget := 100 } = some out ∧
      out.daily_itineraries.isSome ∧ out.cost_breakdown.isSome ∧
      out.total_estimated_cost.isSome ∧
      (({} : ItineraryJson).daily_itineraries = none →
        out.daily_itineraries = some []) ∧
      (({} : ItineraryJson).cost_breakdown = none →
        out.cost_breakdown = some defaultCostBreakdown) ∧
      (({} : ItineraryJson).total_estimated_cost = none →
        out.total_estimated_cost = some 0) :=
  C4_required_fields {} { budget := 100 }

/-- Claim C2: for every distance matrix and every list of activities,
_get_optimal_route returns the activities in their original order, since
the distance callback _get_distance is constantly 1.0 and the Python min
keeps the first minimal element; lists of length at most 2 or with a
missing address are returned as given, so route optimization never
changes the order of the activities of a day. -/
theorem C2_route_identity :
    (∀ (a b : ActivityM) (m : DistanceMatrix), getDistance a b m = 1) ∧
    ∀ (m : DistanceMatrix) (activities : List ActivityM),
      getOptimalRoute m activities = activities := by
  refine ⟨fun _ _ _ => rfl, ?_⟩
  intro m activities
  unfold getOptimalRoute
  repeat' split
  all_goals try rfl
  all_goals simp [nnLoop_append]
